import Mathlib

/-!
Shallow embedding of the three C++ teaching programs of this repository:

* `car.cpp`   — a `Car` record with a `displayInfo` method and a `main`;
* `shape.cpp` — an abstract `Shape` with `Circle` and `Rectangle`
  implementations of `area`, a `printArea` helper and a `main`;
* `cell.cpp`  — a `Cell` with `mitosis`, `apoptosis`, `replicate_dna`
  and a `main`.

C++ `double` values are modelled as real numbers (`ℝ`); the constant
`M_PI` from `<cmath>` is modelled as the real number `π`.  C++ `int` is
modelled as `Int` (no arithmetic is performed on it, so no overflow
modelling is needed).  A method on an object is modelled as a function
from the object's state to a pair of the new state (or the returned
value) and the text the method writes to standard output; a `const`
method or a method body with no assignment leaves the state component
equal to the input state, exactly as the C++ body does.
-/

namespace OopExamples

/-! ### car.cpp -/

/-- The `Car` class of `car.cpp`: three private data members, set by the
constructor's initializer list. -/
structure Car where
  make : String
  model : String
  year : Int

/-- `Car::displayInfo` (a `const` method): writes one line built from the
three members, terminated by `std::endl`, and leaves the object as it
was.  The result pair is (object after the call, text written). -/
def Car.displayInfo (c : Car) : Car × String :=
  (c, "Make: " ++ c.make ++ ", Model: " ++ c.model ++ ", Year: " ++
    toString c.year ++ "\n")

/-- The whole standard output of `main` in `car.cpp`: it constructs
`Car("Toyota", "Corolla", 2020)`, calls `displayInfo` once and returns. -/
def carMain : String :=
  (Car.displayInfo { make := "Toyota", model := "Corolla", year := 2020 }).2

/-! ### shape.cpp -/

noncomputable section

/-- The `M_PI` constant of `<cmath>`, modelled as the real number `π`. -/
def M_PI : ℝ := Real.pi

/-- The `Circle` class of `shape.cpp`: one private member `radius`. -/
structure Circle where
  radius : ℝ

/-- `Circle::area`: `M_PI * radius * radius`. -/
def Circle.area (c : Circle) : ℝ := M_PI * c.radius * c.radius

/-- The `Rectangle` class of `shape.cpp`: private members `width` and
`height`. -/
structure Rectangle where
  width : ℝ
  height : ℝ

/-- `Rectangle::area`: `width * height`. -/
def Rectangle.area (r : Rectangle) : ℝ := r.width * r.height

/-- A reference to the abstract `Shape` base class.  The closed class
hierarchy with its virtual `area` method is modelled as a sum of the two
concrete variants; virtual dispatch is the match on the variant. -/
inductive Shape where
  | ofCircle (c : Circle)
  | ofRectangle (r : Rectangle)

/-- The virtual `area` call through a `Shape` reference: dynamic dispatch
selects the override of the object's concrete class. -/
def Shape.area : Shape → ℝ
  | .ofCircle c => c.area
  | .ofRectangle r => r.area

/-- `printArea(const Shape&)`: writes `"Area: "`, then the value of the
virtual `area` call, then `std::endl`.  The textual rendering that
`std::cout` applies to a `double` is abstracted as a parameter `fmt`,
since only the dispatched numeric value matters here. -/
def printArea (fmt : ℝ → String) (s : Shape) : String :=
  "Area: " ++ fmt s.area ++ "\n"

/-- The whole standard output of `main` in `shape.cpp`: it constructs
`Circle circle(5.0)` and `Rectangle rectangle(10.0, 2.0)` and calls
`printArea` on each, through the `const Shape&` parameter. -/
def shapeMain (fmt : ℝ → String) : String :=
  printArea fmt (.ofCircle { radius := 5 }) ++
    printArea fmt (.ofRectangle { width := 10, height := 2 })

end

/-! ### cell.cpp -/

/-- The `Cell` class of `cell.cpp`: private members `dna` and
`proteins`. -/
structure Cell where
  dna : String
  proteins : List String

/-- The `Cell(std::string dna)` constructor: stores `dna` via the
initializer list and assigns `{"Hemoglobin", "Insulin"}` to `proteins`
in the body. -/
def Cell.make (dna : String) : Cell :=
  { dna := dna, proteins := ["Hemoglobin", "Insulin"] }

/-- `Cell::mitosis`: writes `"Doing cell division"` (no newline) and
changes nothing. -/
def Cell.mitosis (c : Cell) : Cell × String :=
  (c, "Doing cell division")

/-- `Cell::apoptosis`: an empty body — no assignment, no output. -/
def Cell.apoptosis (c : Cell) : Cell × String :=
  (c, "")

/-- `Cell::replicate_dna`: returns `dna + dna`; the body contains no
assignment and writes nothing, so the state component is the input
state.  The result pair is (returned string, object after the call). -/
def Cell.replicate_dna (c : Cell) : String × Cell :=
  (c.dna ++ c.dna, c)

/-- The whole standard output of `main` in `cell.cpp`: it constructs
`Cell cell("ATCG")` and calls `mitosis` once. -/
def cellMain : String :=
  ((Cell.make "ATCG").mitosis).2

/-! ### Theorems for the claims -/

/-- C1: polymorphic dispatch through the abstract `Shape` interface in
`shape.cpp`'s `main`: for any rendering of the numeric value,
`printArea` applied to the circle of radius 5.0 prints the value of
`Circle::area` on that circle, and applied to the 10.0 × 2.0 rectangle
prints the value of `Rectangle::area` on that rectangle. -/
theorem printArea_dispatches (fmt : ℝ → String) :
    printArea fmt (.ofCircle { radius := 5 }) =
      "Area: " ++ fmt (Circle.area { radius := 5 }) ++ "\n" ∧
    printArea fmt (.ofRectangle { width := 10, height := 2 }) =
      "Area: " ++ fmt (Rectangle.area { width := 10, height := 2 }) ++ "\n" := by
  constructor <;> rfl

/-- C2: the area of a circle of radius 5.0 is `M_PI * 5.0 * 5.0`,
i.e. `π * 25`. -/
theorem circle_area_five :
    Circle.area { radius := 5 } = Real.pi * 25 := by
  unfold Circle.area M_PI
  ring

/-- C3: the area of a 10.0 × 2.0 rectangle is exactly 20.0. -/
theorem rectangle_area_ten_two :
    Rectangle.area { width := 10, height := 2 } = 20 := by
  unfold Rectangle.area
  norm_num

/-- C4: a `Cell` constructed with identifier `"ATCG"` replicates its DNA
to `"ATCGATCG"`. -/
theorem replicate_dna_ATCG :
    ((Cell.make "ATCG").replicate_dna).1 = "ATCGATCG" := by
  rfl

/-- C5: `main` of `car.cpp` constructs
`Car("Toyota", "Corolla", 2020)`, calls `displayInfo`, and the whole
standard output of the program is exactly the one line
`Make: Toyota, Model: Corolla, Year: 2020`. -/
theorem carMain_output :
    carMain = "Make: Toyota, Model: Corolla, Year: 2020\n" := by
  rfl

/-- C6: `mitosis` on any `Cell` writes exactly the fixed text
`Doing cell division`, and that is the whole standard output of
`cell.cpp`'s `main`. -/
theorem mitosis_output :
    (∀ c : Cell, (c.mitosis).2 = "Doing cell division") ∧
      cellMain = "Doing cell division" :=
  ⟨fun _ => rfl, rfl⟩

/-- C7: `apoptosis` on any `Cell` has no observable effect: the `dna`
member, the `proteins` member and the whole state are unchanged, and
nothing is written to standard output. -/
theorem apoptosis_no_effect (c : Cell) :
    ((c.apoptosis).1.dna = c.dna ∧ (c.apoptosis).1.proteins = c.proteins) ∧
      (c.apoptosis).1 = c ∧ (c.apoptosis).2 = "" :=
  ⟨⟨rfl, rfl⟩, rfl, rfl⟩

/-- C8: `displayInfo` is read-only: for every `Car`, the `make`, `model`
and `year` members after the call equal those before it. -/
theorem displayInfo_read_only (c : Car) :
    (c.displayInfo).1.make = c.make ∧ (c.displayInfo).1.model = c.model ∧
      (c.displayInfo).1.year = c.year :=
  ⟨rfl, rfl, rfl⟩

/-- C9: for every constructor argument `s`, the constructed `Cell`'s
`proteins` member is exactly `["Hemoglobin", "Insulin"]`, and
`replicate_dna` returns `s` concatenated with itself while leaving the
`dna` and `proteins` members unchanged. -/
theorem cell_make_invariants (s : String) :
    (Cell.make s).proteins = ["Hemoglobin", "Insulin"] ∧
      ((Cell.make s).replicate_dna).1 = s ++ s ∧
      ((Cell.make s).replicate_dna).2 = Cell.make s :=
  ⟨rfl, rfl, rfl⟩

/-- C10: `Rectangle::area` is commutative in the two dimensions: for all
`w` and `h`, the area of a `w × h` rectangle equals the area of an
`h × w` rectangle. -/
theorem rectangle_area_comm (w h : ℝ) :
    Rectangle.area { width := w, height := h } =
      Rectangle.area { width := h, height := w } := by
  unfold Rectangle.area
  exact mul_comm w h

end OopExamples
